import Mathlib

/-!
Verification development for the event-triggered AI responder webhook
(`api/ai-bot` handler with the embedded `AiPollCreator`).

The definitions below are a shallow embedding of the JavaScript source:
strings are Lean `String`s, JavaScript truthiness of optional values is made
explicit, database calls are modelled by an oracle record whose fields hold
the values the store would return, and every store mutation the handler
performs is recorded in an explicit effect list.
-/

/-! ## String primitives mirroring the JavaScript ones -/

/-- The apostrophe character, used to build message strings. -/
def apos : String := String.mk [Char.ofNat 39]

/-- Whitespace class of JavaScript `\s` / `trim` (ASCII part). -/
def jsWhitespaceChar (c : Char) : Bool :=
  c = ' ' || c = '\t' || c = '\n' || c = '\r' || c = Char.ofNat 11 || c = Char.ofNat 12

/-- JavaScript `String.prototype.trim`. -/
def jsTrim (s : String) : String :=
  String.mk (((s.toList.dropWhile jsWhitespaceChar).reverse.dropWhile jsWhitespaceChar).reverse)

/-- Lowercasing as used by `toLowerCase` (ASCII). -/
def toLowerStr (s : String) : String := String.mk (s.toList.map Char.toLower)

/-- Does `pat` occur at the start of `cs`? -/
def strStartsWithChars : List Char → List Char → Bool
  | [], _ => true
  | _ :: _, [] => false
  | p :: ps, c :: cs => p = c && strStartsWithChars ps cs

/-- JavaScript `String.prototype.startsWith`. -/
def strStartsWith (s pat : String) : Bool := strStartsWithChars pat.toList s.toList

/-- Helper for substring search: does `pat` occur anywhere in the list? -/
def strContainsAux (pat : List Char) : List Char → Bool
  | [] => strStartsWithChars pat []
  | c :: cs => strStartsWithChars pat (c :: cs) || strContainsAux pat cs

/-- JavaScript `String.prototype.includes`. -/
def containsSub (s pat : String) : Bool := strContainsAux pat.toList s.toList

/-- JavaScript `a || b` on strings: the empty string is falsy. -/
def jsOrS (a b : String) : String := if a = "" then b else a

/-- JavaScript `a || b` where `a` is an optional string and the result stays optional. -/
def jsOrOpt (a b : Option String) : Option String :=
  match a with
  | some s => if s = "" then b else some s
  | none => b

/-- JavaScript `a || b` for an optional config string against a default. -/
def jsOrD (a : Option String) (b : String) : String :=
  match a with
  | some s => if s = "" then b else s
  | none => b

/-- JavaScript `record.user_id || record.author_id` (ids are opaque non-empty values). -/
def jsOrId (a b : Option Nat) : Option Nat :=
  match a with
  | some u => some u
  | none => b

/-- JavaScript truthiness of an optional number (0 and `undefined` are falsy). -/
def natTruthyOpt (o : Option Nat) : Bool :=
  match o with
  | some n => n != 0
  | none => false

/-- Rendering of an optional string inside a template literal
(`undefined` prints as the string "undefined"). -/
def jsStr (o : Option String) : String :=
  match o with
  | some s => s
  | none => "undefined"

/-- `text.split('\n')`, auxiliary. -/
def splitLinesAux : List Char → List Char → List String
  | [], acc => [String.mk acc.reverse]
  | c :: cs, acc =>
    if c = '\n' then String.mk acc.reverse :: splitLinesAux cs []
    else splitLinesAux cs (c :: acc)

/-- `text.split('\n')`. -/
def splitLines (s : String) : List String := splitLinesAux s.toList []

/-- `lines.join('\n')`. -/
def joinLines : List String → String
  | [] => ""
  | [l] => l
  | l :: ls => l ++ "\n" ++ joinLines ls

/-! ## The regular expressions of `AiPollCreator.scrubContent` -/

/-- `line.replace(/[*_#\[\]]/g, '')`: strip lightweight markup characters. -/
def stripMarkup (s : String) : String :=
  String.mk (s.toList.filter
    (fun c => !(c = '*' || c = '_' || c = '#' || c = '[' || c = ']')))

/-- Test of `/^(poll options|options|choices|candidates|vote for|vote|question)/i`. -/
def matchPollHeader (s : String) : Bool :=
  let l := toLowerStr s
  strStartsWith l "poll options" || strStartsWith l "options" || strStartsWith l "choices" ||
  strStartsWith l "candidates" || strStartsWith l "vote for" || strStartsWith l "vote" ||
  strStartsWith l "question"

/-- Test of `/[?:]\s*$/`: the string ends in `?` or `:` up to trailing whitespace. -/
def matchQuestionEnd (s : String) : Bool :=
  match s.toList.reverse.dropWhile jsWhitespaceChar with
  | c :: _ => c = '?' || c = ':'
  | [] => false

/-- Test of `/[.!?]$/`: the last character is terminal punctuation. -/
def endsWithTerminalPunct (s : String) : Bool :=
  match s.toList.getLast? with
  | some c => c = '.' || c = '!' || c = '?'
  | none => false

/-- Test of `/^([-*]|\d+[.)])/`: the line starts with a bullet or a numbered marker. -/
def matchBulletStart (s : String) : Bool :=
  match s.toList with
  | [] => false
  | c :: rest =>
    if c = '-' || c = '*' then true
    else if c.isDigit then
      match (c :: rest).dropWhile Char.isDigit with
      | d :: _ => d = '.' || d = ')'
      | [] => false
    else false

/-- Drop leading `\s*`. -/
def dropJsWs (cs : List Char) : List Char := cs.dropWhile jsWhitespaceChar

/-- Capture group 3, `\s*(.+)` at the end of the list-item pattern: group 3 is
the remainder after greedily consuming whitespace, backtracking so that it is
non-empty (so an all-whitespace remainder yields its last character). -/
def tailGroup (rem : List Char) : Option String :=
  match dropJsWs rem with
  | [] =>
    match rem.getLast? with
    | none => none
    | some c => some (String.mk [c])
  | l => some (String.mk l)

/-- Match of `/^([-*]\s*(\[.?\])?|\d+[.)])\s*(.+)/` returning capture group 3.
The optional checkbox `\[.?\]` is tried greedily (one inner character first,
then zero, then absent) exactly as the backtracking regex engine does. -/
def matchListItem (s : String) : Option String :=
  match s.toList with
  | [] => none
  | c :: rest =>
    if c = '-' || c = '*' then
      let afterSpaces := dropJsWs rest
      let try1 :=
        match afterSpaces with
        | '[' :: _ :: ']' :: t => tailGroup t
        | _ => none
      match try1 with
      | some g => some g
      | none =>
        let try0 :=
          match afterSpaces with
          | '[' :: ']' :: t => tailGroup t
          | _ => none
        match try0 with
        | some g => some g
        | none => tailGroup afterSpaces
    else if c.isDigit then
      match (c :: rest).dropWhile Char.isDigit with
      | d :: t => if d = '.' || d = ')' then tailGroup t else none
      | [] => none
    else none

/-! ## The Poll Extraction Engine (`AiPollCreator.scrubContent`) -/

/-- Result record of `scrubContent`. -/
structure ScrubResult where
  originalLineCount : Nat
  cleanContent : String
  foundOptions : List String
deriving DecidableEq, Repr

/-- What the per-line body of the `scrubContent` loop does with one line. -/
inductive LineAction where
  | dropLine (newCap : Bool)
  | keepLine (newCap : Bool)
  | emitOption (opt : String) (newCap : Bool)
deriving DecidableEq, Repr

/-- `while (nextIdx < lines.length && !lines[nextIdx].trim()) nextIdx++`:
the first line of `rest` that is non-empty after trimming. -/
def firstNonEmptyLine : List String → Option String
  | [] => none
  | l :: ls => if jsTrim l = "" then firstNonEmptyLine ls else some l

/-- Steps 4 and 5 of the loop body: implicit list item while capturing,
otherwise possibly exit capture, and keep the line when not capturing. -/
def classifyTail (cap : Bool) (line cleanLine : String) : LineAction :=
  let endsP := endsWithTerminalPunct cleanLine
  if cap && decide (cleanLine.length < 80) && !endsP then
    LineAction.emitOption cleanLine cap
  else
    let cap2 := if cap && (decide (line.length > 80) || endsP) then false else cap
    if cap2 then LineAction.dropLine cap2 else LineAction.keepLine cap2

/-- Step 2 of the loop body: an implicit question (or any line in aggressive
mode) starts capture when the next non-blank line looks like a list item. -/
def step2Lookahead (agg cap : Bool) (cleanLine : String) (rest : List String) : Bool :=
  if (matchQuestionEnd cleanLine || agg) && !cap then
    match firstNonEmptyLine rest with
    | some nextRaw =>
      let cleanNextLine := jsTrim (stripMarkup (jsTrim nextRaw))
      let nextIsBullet := matchBulletStart cleanNextLine
      let nextIsShortText :=
        decide (cleanNextLine.length < 50) && !endsWithTerminalPunct cleanNextLine
      nextIsBullet || (agg && nextIsShortText)
    | none => false
  else false

/-- The body of the `scrubContent` loop for one line (`raw`), with `rest`
providing the lookahead of step 2. -/
def classifyLine (agg cap : Bool) (raw : String) (rest : List String) : LineAction :=
  let line := jsTrim raw
  if line = "" then
    if cap then LineAction.dropLine cap else LineAction.keepLine cap
  else
    let cleanLine := jsTrim (stripMarkup line)
    if matchPollHeader cleanLine then LineAction.dropLine true
    else if step2Lookahead agg cap cleanLine rest then LineAction.keepLine true
    else
      match matchListItem cleanLine with
      | some g =>
        let opt := jsTrim g
        if opt.length < 100 then LineAction.emitOption opt true
        else classifyTail cap line cleanLine
      | none => classifyTail cap line cleanLine

/-- The `scrubContent` loop: returns `(options, cleanLines)`. -/
def scrubLoop (agg : Bool) : Bool → List String → (List String × List String)
  | _, [] => ([], [])
  | cap, raw :: rest =>
    match classifyLine agg cap raw rest with
    | LineAction.dropLine c => scrubLoop agg c rest
    | LineAction.keepLine c =>
      let r := scrubLoop agg c rest
      (r.1, raw :: r.2)
    | LineAction.emitOption opt c =>
      let r := scrubLoop agg c rest
      (opt :: r.1, r.2)

/-- `AiPollCreator.scrubContent(text, isAggressive)`. -/
def AiPollCreator.scrubContent (text : String) (isAggressive : Bool) : ScrubResult :=
  let lines := splitLines text
  let r := scrubLoop isAggressive false lines
  { originalLineCount := lines.length
    cleanContent := jsTrim (joinLines r.2)
    foundOptions := r.1 }

/-! ## Data model of the handler -/

/-- The inserted row delivered by the webhook (`record`), with the possible
text-bearing fields and foreign keys the handler reads. -/
structure Rec where
  id : Nat
  user_id : Option Nat
  author_id : Option Nat
  post_id : Option Nat
  thread_id : Option Nat
  content : Option String
  body : Option String
  description : Option String
  caption : Option String
  code_snippet : Option String
  title : Option String
deriving DecidableEq, Repr

/-- The inbound webhook request. -/
structure Request where
  method : String
  type : String
  table : String
  record : Rec
deriving DecidableEq, Repr

/-- `result.post_data` of the model decision. -/
structure PostData where
  title : Option String
  content : Option String
  tags : List String
deriving DecidableEq, Repr

/-- `result.poll_data` of the model decision. -/
structure PollData where
  question : Option String
  options : List String
deriving DecidableEq, Repr

/-- The parsed model decision (`result` after JSON extraction).
A missing string field is the empty string, matching JavaScript falsiness. -/
structure AiResult where
  action : String
  reply_text : String
  post_data : Option PostData
  poll_data : Option PollData
  poll_vote_option_id : Option Nat
  poll_vote_comment : String
deriving DecidableEq, Repr

/-- A row of `poll_options`. -/
structure PollOption where
  id : Nat
  poll_id : Nat
  option_text : String
deriving DecidableEq, Repr

/-- A row of `poll_votes`. -/
structure PollVote where
  user_id : Nat
  option_id : Nat
  poll_id : Nat
deriving DecidableEq, Repr

/-- The `ai_config` rows the handler reads (only the fields the claims need). -/
structure ConfigMap where
  bot_user_id : Option Nat
  ai_provider : Option String
deriving DecidableEq, Repr

/-- Outcome of the placeholder insert into `ai_memories_log`. -/
inductive ClaimInsertRes where
  | ok (id : Nat)
  | uniqueViolation
  | otherError
deriving DecidableEq, Repr

/-- Store mutations the handler performs, in order. -/
inductive Effect where
  | insertClaim (claimId triggerId : Nat) (inputText outputText : String)
  | deleteClaim (claimId : Nat)
  | updateClaim (claimId : Nat) (outputText : String)
  | insertPost (userId : Nat) (title descr : Option String)
  | insertPoll (pollId postId : Nat) (question : Option String)
  | insertPollOptions (pollId : Nat) (options : List String)
  | insertPollVote (pollId optionId userId : Nat)
  | incrementPollVote (optionId : Nat)
  | deleteFrom (table : String) (id : Nat)
  | insertReply (table : String) (userId : Nat) (content : String) (parentId : Option Nat)
  | insertLogFallback (triggerId : Nat) (outputText : String)
  | neonLog (triggerId : Nat)
deriving DecidableEq, Repr

/-- Everything the external stores and the generation provider would answer
during one invocation: reads are answered from these fields, and failures of
writes are modelled by their error fields. -/
structure DbOracle where
  config : ConfigMap
  claimInsert : ClaimInsertRes
  claimsQuery : List Nat
  parentPostExists : Bool
  parentPollExists : Bool
  parentPollOptions : List PollOption
  gen : Except Unit (String × AiResult)
  postInsert : Except String Nat
  pollInsert : Option Nat
  optionIds : List Nat
  randIndex : Nat
  existingVotes : List PollVote
  voteInsertError : Option String
  deleteError : Option String
deriving Repr

/-- HTTP outcome plus the ordered list of store mutations performed. -/
structure HandlerResult where
  status : Nat
  message : String
  effects : List Effect
deriving DecidableEq, Repr

/-- Outcome of the action-dispatch section: the reply text, the mutations it
performed, and whether it returned early (successful content removal). -/
structure ExecOut where
  responseText : String
  effects : List Effect
  earlyReturn : Bool
deriving DecidableEq, Repr

/-! ## Fixed message strings of the handler -/

/-- Sentinel output of a freshly inserted claim record. -/
def processingSentinel : String := "(PROCESSING)"

/-- Reply used when the provider call or the action logic threw. -/
def msgProcessingError : String := "I encountered a processing error. Please try again."

/-- Reply for a vote on an option id outside the assembled context. -/
def msgInvalidOption : String := "I tried to vote, but that option ID seems invalid. 🤔"

/-- Reply when the bot already voted for the chosen option. -/
def msgAlreadyVoted : String := "I" ++ apos ++ "ve already voted on this poll! 😊"

/-- Refusal for a removal on a non-deletable source table. -/
def msgCannotRemove : String := "I cannot remove content from this source table."

/-- Default confirmation after creating a post. -/
def msgCreatedPost (title : Option String) : String :=
  "✅ I" ++ apos ++ "ve created the post: **\"" ++ jsStr title ++ "\"**"

/-- Default confirmation after voting. -/
def msgVotedFor (t : String) : String := "I voted for **\"" ++ t ++ "\"**! 🗳️"

/-! ## `AiPollCreator.process` -/

/-- `AiPollCreator.process(aiResult)`: reconcile detected inline options with
the structured poll payload of a `CREATE_POST` decision. -/
def AiPollCreator.process (result : AiResult) : AiResult :=
  if result.action ≠ "CREATE_POST" ∨ result.post_data.isNone then result
  else
    match result.post_data with
    | none => result
    | some pd =>
      let hasValidWidget :=
        match result.poll_data with
        | some w => decide (w.options.length ≥ 2)
        | none => false
      let title := toLowerStr (jsOrD pd.title "")
      let isAggressiveContext :=
        (containsSub title "poll" || containsSub title "vote") && result.poll_data.isSome
      let content := jsOrD pd.content ""
      let scrubbed := AiPollCreator.scrubContent content isAggressiveContext
      if hasValidWidget then
        if scrubbed.foundOptions.length > 0 then
          { result with post_data := some { pd with content := some scrubbed.cleanContent } }
        else result
      else if scrubbed.foundOptions.length ≥ 2 then
        { result with
          poll_data := some { question := pd.title, options := scrubbed.foundOptions.take 5 }
          post_data := some
            { pd with content := some (jsOrS scrubbed.cleanContent "Cast your vote below! 👇") } }
      else result

/-! ## The handler -/

/-- Tables the webhook listens to. -/
def validTables : List String := ["comments", "posts", "threads", "thread_comments"]

/-- `content || body || description || caption || code_snippet || title || ''`. -/
def effectiveContent (r : Rec) : String :=
  jsOrD r.content (jsOrD r.body (jsOrD r.description
    (jsOrD r.caption (jsOrD r.code_snippet (jsOrD r.title "")))))

/-- Provider-to-trigger-keyword mapping (`providerTriggers[provider] || '@bot'`). -/
def providerTriggers (provider : String) : String :=
  if provider = "google" then "@gemini"
  else if provider = "ollama" then "@ollama"
  else if provider = "openai" then "@gpt"
  else "@bot"

/-- The trigger check: the message contains the provider keyword or "hey ai". -/
def isTriggered (provider content : String) : Bool :=
  let lower := toLowerStr content
  containsSub lower (toLowerStr (providerTriggers provider)) || containsSub lower "hey ai"

/-- Poll intent of the user message: contains poll/vote/survey/options. -/
def wantsPoll (content : String) : Bool :=
  let u := toLowerStr content
  containsSub u "poll" || containsSub u "vote" || containsSub u "survey" || containsSub u "options"

/-- The poll-processing section: run `AiPollCreator.process` when the user
asked for a poll, otherwise scrub any hallucinated poll payload. -/
def processDecision (content : String) (result : AiResult) : AiResult :=
  if wantsPoll content then AiPollCreator.process result
  else if result.poll_data.isSome then { result with poll_data := none }
  else result

/-- Poll options gathered during context assembly (only for comments whose
parent post exists and has an attached poll). -/
def contextPollOptions (table : String) (item : Rec) (o : DbOracle) : List PollOption :=
  if table = "comments" ∧ natTruthyOpt item.post_id = true then
    if o.parentPostExists then
      if o.parentPollExists then o.parentPollOptions else []
    else []
  else []

/-- Reply-dispatch mapping: destination table and parent reference. -/
def replyTarget (table : String) (item : Rec) : String × Option Nat :=
  if table = "posts" then ("threads", some item.id)
  else if table = "threads" then ("thread_comments", some item.id)
  else if table = "thread_comments" then ("thread_comments", item.thread_id)
  else if table = "comments" then ("comments", item.post_id)
  else ("", none)

/-- The action-dispatch section (CREATE_POST / VOTE_POLL / REMOVE_CONTENT / reply). -/
def executeAction (table : String) (itemId botUserId : Nat)
    (pollOptionsForPrompt : List PollOption) (rawText actionType : String)
    (result : AiResult) (o : DbOracle) : ExecOut :=
  if actionType = "CREATE_POST" ∧ result.post_data.isSome = true then
    match result.post_data with
    | none => ExecOut.mk (jsOrS result.reply_text rawText) [] false
    | some pd =>
      match o.postInsert with
      | Except.error msg =>
        ExecOut.mk ("❌ I encountered an error creating the post: " ++ msg ++ " ") [] false
      | Except.ok newPostId =>
        let responseText := jsOrS result.reply_text (msgCreatedPost pd.title)
        let pollPart :=
          match result.poll_data with
          | some pdta =>
            if pdta.options.length ≥ 2 then
              let cleanOptions := pdta.options.take 5
              match o.pollInsert with
              | some newPollId =>
                let insertedOptions := (List.zip o.optionIds cleanOptions).map
                  (fun p => PollOption.mk p.1 newPollId p.2)
                let e1 := [Effect.insertPoll newPollId newPostId (jsOrOpt pdta.question pd.title),
                           Effect.insertPollOptions newPollId cleanOptions]
                if insertedOptions.length > 0 then
                  let randomOption :=
                    insertedOptions.getD (o.randIndex % insertedOptions.length) (PollOption.mk 0 0 "")
                  e1 ++ [Effect.insertPollVote newPollId randomOption.id botUserId,
                         Effect.incrementPollVote randomOption.id]
                else e1
              | none => []
            else []
          | none => []
        ExecOut.mk responseText (Effect.insertPost botUserId pd.title pd.content :: pollPart) false
  else if actionType = "VOTE_POLL" ∧ natTruthyOpt result.poll_vote_option_id = true then
    let optionId := result.poll_vote_option_id.getD 0
    match pollOptionsForPrompt.find? (fun op => op.id == optionId) with
    | some isValidOption =>
      match o.existingVotes.find? (fun v => v.user_id == botUserId && v.option_id == optionId) with
      | some _ => ExecOut.mk msgAlreadyVoted [] false
      | none =>
        match o.voteInsertError with
        | some msg => ExecOut.mk ("❌ I tried to vote but failed: " ++ msg) [] false
        | none =>
          ExecOut.mk
            (jsOrS result.reply_text (jsOrS result.poll_vote_comment
              (msgVotedFor isValidOption.option_text)))
            [Effect.insertPollVote isValidOption.poll_id optionId botUserId,
             Effect.incrementPollVote optionId] false
    | none => ExecOut.mk msgInvalidOption [] false
  else if actionType = "REMOVE_CONTENT" then
    if table ∈ ["posts", "threads", "comments"] then
      match o.deleteError with
      | some msg => ExecOut.mk ("❌ Failed to remove content: " ++ msg) [] false
      | none =>
        ExecOut.mk (jsOrS result.reply_text "✅ Content removed successfully.")
          [Effect.deleteFrom table itemId] true
    else ExecOut.mk msgCannotRemove [] false
  else ExecOut.mk (jsOrS result.reply_text rawText) [] false

/-- Everything after a claim outcome is known: bot-id check, context assembly,
generation, dispatch, reply posting and claim finalization. -/
def handlerPostClaim (table : String) (item : Rec) (content : String)
    (claimId : Option Nat) (o : DbOracle) : HandlerResult :=
  match o.config.bot_user_id with
  | none =>
    { status := 500
      message := "Bot not configured"
      effects :=
        match claimId with
        | some c => [Effect.updateClaim c "ERROR: Bot Not Configured"]
        | none => [] }
  | some botUserId =>
    let pollOptionsForPrompt := contextPollOptions table item o
    let exec :=
      match o.gen with
      | Except.error _ => ExecOut.mk msgProcessingError [] false
      | Except.ok rawResult =>
        let actionType := jsOrS rawResult.2.action "REPLY"
        let result := processDecision content rawResult.2
        executeAction table item.id botUserId pollOptionsForPrompt rawResult.1 actionType result o
    if exec.earlyReturn then
      { status := 200, message := "REMOVED", effects := exec.effects }
    else
      let target := replyTarget table item
      let finalizeEffects :=
        match claimId with
        | some c => [Effect.updateClaim c exec.responseText]
        | none => [Effect.insertLogFallback item.id exec.responseText]
      { status := 200
        message := "success"
        effects := exec.effects
          ++ [Effect.insertReply target.1 botUserId ("🤖 " ++ exec.responseText) target.2]
          ++ finalizeEffects ++ [Effect.neonLog item.id] }

/-- The webhook handler. `supabaseOk` models presence of the store credentials. -/
def handler (supabaseOk : Bool) (req : Request) (o : DbOracle) : HandlerResult :=
  if req.method ≠ "POST" then ⟨405, "Method Not Allowed", []⟩
  else if req.type ≠ "INSERT" ∨ req.table ∉ validTables then ⟨200, "Ignored event/table", []⟩
  else
    let item := req.record
    let content := effectiveContent item
    if content = "" ∨ strStartsWith content "🤖" = true ∨ containsSub content "[AI Reply]" = true then
      ⟨200, "Ignored own content", []⟩
    else if supabaseOk = false then ⟨500, "Server Configuration Error", []⟩
    else
      let botUserId := o.config.bot_user_id
      let provider := jsOrD o.config.ai_provider "google"
      let authorId := jsOrId item.user_id item.author_id
      if authorId.isSome = true ∧ botUserId.isSome = true ∧ authorId = botUserId then
        ⟨200, "Ignored self-trigger", []⟩
      else if isTriggered provider content = false then ⟨200, "No trigger keyword found", []⟩
      else
        match o.claimInsert with
        | ClaimInsertRes.uniqueViolation => ⟨200, "Duplicate trigger (already processed)", []⟩
        | ci =>
          let claimId : Option Nat :=
            match ci with
            | ClaimInsertRes.ok i => some i
            | _ => none
          let claimEffects : List Effect :=
            match ci with
            | ClaimInsertRes.ok i => [Effect.insertClaim i item.id content processingSentinel]
            | _ => []
          match o.claimsQuery with
          | [] =>
            let r := handlerPostClaim req.table item content claimId o
            { r with effects := claimEffects ++ r.effects }
          | firstId :: _ =>
            match claimId with
            | some c =>
              if firstId ≠ c then
                ⟨200, "Duplicate trigger (race detected)", claimEffects ++ [Effect.deleteClaim c]⟩
              else
                let r := handlerPostClaim req.table item content claimId o
                { r with effects := claimEffects ++ r.effects }
            | none => ⟨200, "Duplicate trigger (found existing)", claimEffects⟩

/-! ## Derived predicates used by the theorems -/

/-- All guard checks before the trigger-keyword check pass: POST, INSERT on a
whitelisted table, non-empty message text without the bot marker or reply tag,
store credentials present, and the author is not the configured bot. -/
abbrev GuardsPass (supabaseOk : Bool) (req : Request) (o : DbOracle) : Prop :=
  req.method = "POST" ∧ req.type = "INSERT" ∧ req.table ∈ validTables ∧
  effectiveContent req.record ≠ "" ∧
  strStartsWith (effectiveContent req.record) "🤖" = false ∧
  containsSub (effectiveContent req.record) "[AI Reply]" = false ∧
  supabaseOk = true ∧
  ¬((jsOrId req.record.user_id req.record.author_id).isSome = true ∧
    o.config.bot_user_id.isSome = true ∧
    jsOrId req.record.user_id req.record.author_id = o.config.bot_user_id)

/-- Provenance of an extracted option: it came from a line whose cleaned form
matched the list-item pattern, or it is the cleaned form of a short line
without terminal punctuation (the implicit capture of step 4). -/
def optionSource (raw opt : String) : Prop :=
  (∃ g, matchListItem (jsTrim (stripMarkup (jsTrim raw))) = some g ∧ opt = jsTrim g) ∨
  (opt = jsTrim (stripMarkup (jsTrim raw)) ∧
    (jsTrim (stripMarkup (jsTrim raw))).length < 80 ∧
    endsWithTerminalPunct (jsTrim (stripMarkup (jsTrim raw))) = false)

/-! ## Concrete fixtures for witnesses and counterexamples -/

/-- A comment record whose text contains the "hey ai" trigger but no poll keyword. -/
def exRecord : Rec :=
  { id := 1, user_id := some 10, author_id := none, post_id := some 3, thread_id := none,
    content := some "hey ai hello", body := none, description := none, caption := none,
    code_snippet := none, title := none }

/-- A webhook request for `exRecord` on the comments table. -/
def exRequest : Request :=
  { method := "POST", type := "INSERT", table := "comments", record := exRecord }

/-- The same request arriving on the posts table. -/
def exRequestPosts : Request := { exRequest with table := "posts" }

/-- A request whose message text carries no trigger keyword. -/
def exRequestNoTrigger : Request :=
  { exRequest with
    record := { exRecord with content := some "just a comment" } }

/-- Options of the poll attached to the parent post in the fixtures. -/
def exPollOptions : List PollOption := [PollOption.mk 1 7 "A", PollOption.mk 2 7 "B"]

/-- A plain reply decision. -/
def exReplyDecision : AiResult :=
  { action := "REPLY", reply_text := "hello there", post_data := none, poll_data := none,
    poll_vote_option_id := none, poll_vote_comment := "" }

/-- A removal decision. -/
def exRemoveDecision : AiResult :=
  { exReplyDecision with
    action := "REMOVE_CONTENT", reply_text := "" }

/-- A vote decision for option 2 (an option of poll 7). -/
def exVoteDecision : AiResult :=
  { exReplyDecision with
    action := "VOTE_POLL", reply_text := "", poll_vote_option_id := some 2 }

/-- A vote decision citing option id 0. -/
def exVoteZeroDecision : AiResult :=
  { exReplyDecision with
    action := "VOTE_POLL", reply_text := "hello", poll_vote_option_id := some 0 }

/-- Baseline oracle: claim insert succeeds with id 5 and the re-query sees it
first; the parent post carries poll 7 with `exPollOptions`; generation returns
`exReplyDecision`; all writes succeed. -/
def exOracle : DbOracle :=
  { config := { bot_user_id := some 99, ai_provider := some "google" }
    claimInsert := ClaimInsertRes.ok 5
    claimsQuery := [5]
    parentPostExists := true
    parentPollExists := true
    parentPollOptions := exPollOptions
    gen := Except.ok ("raw", exReplyDecision)
    postInsert := Except.ok 50
    pollInsert := some 60
    optionIds := [100, 101]
    randIndex := 0
    existingVotes := []
    voteInsertError := none
    deleteError := none }

/-- Oracle where the re-query sees an earlier competing claim (id 4). -/
def exOracleRace : DbOracle := { exOracle with claimsQuery := [4, 5] }

/-- Oracle whose generated decision is a removal. -/
def exOracleRemove : DbOracle := { exOracle with gen := Except.ok ("raw", exRemoveDecision) }

/-- Oracle whose generated decision is a vote for option 2. -/
def exOracleVote : DbOracle := { exOracle with gen := Except.ok ("raw", exVoteDecision) }

/-- Oracle where the bot has already voted for option 1 of poll 7. -/
def exOracleVoted : DbOracle := { exOracleVote with existingVotes := [PollVote.mk 99 1 7] }

/-! ## Claim theorems -/

/-- Claim C5: on the input `"What's your favorite color?\n- Red\n- Blue\n- Green"`
with `aggressive=false` the Poll Extraction Engine returns the options
`["Red", "Blue", "Green"]` and a clean text consisting of only the question line. -/
theorem poll_extraction_example_ok :
    (AiPollCreator.scrubContent
      ("What" ++ apos ++ "s your favorite color?\n- Red\n- Blue\n- Green") false).foundOptions =
      ["Red", "Blue", "Green"] ∧
    (AiPollCreator.scrubContent
      ("What" ++ apos ++ "s your favorite color?\n- Red\n- Blue\n- Green") false).cleanContent =
      ("What" ++ apos ++ "s your favorite color?") := by
  decide

/-- Claim C6 counterexample: with `aggressive=false`, the input
`"Choices:\nRed\nBlue"` yields the options `["Red", "Blue"]` although no line
of the input matches the bullet/numbered/checkbox pattern — a short line
without a bullet is captured as an option even outside aggressive mode. -/
theorem nonbullet_options_without_aggressive_cx :
    (AiPollCreator.scrubContent "Choices:\nRed\nBlue" false).foundOptions = ["Red", "Blue"] ∧
    (∀ raw ∈ splitLines "Choices:\nRed\nBlue",
      matchListItem (jsTrim (stripMarkup (jsTrim raw))) = none) := by
  decide

/-- Helper: an option emitted by steps 4 and 5 is the clean line, short and
without terminal punctuation. -/
theorem classifyTail_emit (cap : Bool) (line cleanLine opt : String) (c : Bool)
    (h : classifyTail cap line cleanLine = LineAction.emitOption opt c) :
    opt = cleanLine ∧ cleanLine.length < 80 ∧ endsWithTerminalPunct cleanLine = false := by
  simp only [classifyTail] at h
  by_cases hc : (cap && decide (cleanLine.length < 80) && !endsWithTerminalPunct cleanLine) = true
  · rw [if_pos hc] at h
    injection h with h1 h2
    simp only [Bool.and_eq_true, decide_eq_true_eq, Bool.not_eq_true'] at hc
    exact ⟨h1.symm, hc.1.2, hc.2⟩
  · rw [if_neg hc] at h
    revert h
    split <;> intro h <;> (try split at h) <;> simp at h

/-- Helper: any option emitted by the loop body satisfies `optionSource`. -/
theorem classifyLine_emit_source (agg cap : Bool) (raw : String) (rest : List String)
    (opt : String) (c : Bool) (h : classifyLine agg cap raw rest = LineAction.emitOption opt c) :
    optionSource raw opt := by
  simp only [classifyLine] at h
  by_cases h1 : jsTrim raw = ""
  · rw [if_pos h1] at h
    split at h <;> exact absurd h (by simp)
  · rw [if_neg h1] at h
    by_cases h2 : matchPollHeader (jsTrim (stripMarkup (jsTrim raw))) = true
    · rw [if_pos h2] at h
      exact absurd h (by simp)
    · rw [if_neg h2] at h
      by_cases h3 : step2Lookahead agg cap (jsTrim (stripMarkup (jsTrim raw))) rest = true
      · rw [if_pos h3] at h
        exact absurd h (by simp)
      · rw [if_neg h3] at h
        cases hm : matchListItem (jsTrim (stripMarkup (jsTrim raw))) with
        | some g =>
          rw [hm] at h
          simp only at h
          by_cases h4 : (jsTrim g).length < 100
          · rw [if_pos h4] at h
            injection h with ha hb
            exact Or.inl ⟨g, hm, ha.symm⟩
          · rw [if_neg h4] at h
            exact Or.inr (classifyTail_emit _ _ _ _ _ h)
        | none =>
          rw [hm] at h
          simp only at h
          exact Or.inr (classifyTail_emit _ _ _ _ _ h)

/-- Helper: every option produced by the scrub loop originates from some
input line satisfying `optionSource`. -/
theorem scrubLoop_options_source (agg : Bool) (lines : List String) (cap : Bool) (opt : String)
    (h : opt ∈ (scrubLoop agg cap lines).1) :
    ∃ raw ∈ lines, optionSource raw opt := by
  induction lines generalizing cap with
  | nil => simp [scrubLoop] at h
  | cons raw rest ih =>
    simp only [scrubLoop] at h
    cases hc : classifyLine agg cap raw rest with
    | dropLine c =>
      simp only [hc] at h
      obtain ⟨r, hr, hs⟩ := ih c h
      exact ⟨r, List.mem_cons_of_mem _ hr, hs⟩
    | keepLine c =>
      simp only [hc] at h
      obtain ⟨r, hr, hs⟩ := ih c h
      exact ⟨r, List.mem_cons_of_mem _ hr, hs⟩
    | emitOption o c =>
      simp only [hc] at h
      rcases List.mem_cons.mp h with h1 | h2
      · subst h1
        exact ⟨raw, List.mem_cons_self _ _, classifyLine_emit_source agg cap raw rest _ c hc⟩
      · obtain ⟨r, hr, hs⟩ := ih c h2
        exact ⟨r, List.mem_cons_of_mem _ hr, hs⟩

/-- Claim C6 (amended): every option extracted by the Poll Extraction Engine
comes from a line whose cleaned form matches the bullet/numbered/checkbox
pattern, or is the cleaned form of a short line (under 80 characters, no
terminal punctuation) taken during capture — in both modes, not only when
aggressive. -/
theorem scrub_option_provenance (text : String) (agg : Bool) (opt : String)
    (h : opt ∈ (AiPollCreator.scrubContent text agg).foundOptions) :
    ∃ raw ∈ splitLines text, optionSource raw opt := by
  unfold AiPollCreator.scrubContent at h
  exact scrubLoop_options_source agg (splitLines text) false opt h

/-- Witness for `scrub_option_provenance` at a concrete input. -/
theorem scrub_option_provenance_witness :
    "Red" ∈ (AiPollCreator.scrubContent "Choices:\nRed\nBlue" false).foundOptions ∧
    ∃ raw ∈ splitLines "Choices:\nRed\nBlue", optionSource raw "Red" :=
  ⟨by decide, scrub_option_provenance "Choices:\nRed\nBlue" false "Red" (by decide)⟩

/-- Claim C7: for every RemoveContent decision, a store delete is issued only
when the triggering source table is posts, threads or comments; for any other
source table zero delete calls are made and the fixed refusal reply text is
produced instead. -/
theorem remove_content_table_guard (table : String) (itemId botUserId : Nat)
    (opts : List PollOption) (rawText actionType : String) (result : AiResult) (o : DbOracle)
    (ha : actionType = "REMOVE_CONTENT") :
    (∀ t i, Effect.deleteFrom t i ∈
        (executeAction table itemId botUserId opts rawText actionType result o).effects →
      table ∈ ["posts", "threads", "comments"]) ∧
    (table ∉ ["posts", "threads", "comments"] →
      (∀ t i, Effect.deleteFrom t i ∉
          (executeAction table itemId botUserId opts rawText actionType result o).effects) ∧
      (executeAction table itemId botUserId opts rawText actionType result o).responseText =
        msgCannotRemove) := by
  subst ha
  constructor
  · intro t i hmem
    by_cases ht : table ∈ ["posts", "threads", "comments"]
    · exact ht
    · exfalso
      revert hmem
      simp [executeAction, ht]
  · intro ht
    constructor
    · intro t i
      simp [executeAction, ht]
    · simp [executeAction, ht]

/-- Witness for `remove_content_table_guard` on source table thread_comments. -/
theorem remove_content_table_guard_witness :
    "thread_comments" ∉ ["posts", "threads", "comments"] ∧
    ((∀ t i, Effect.deleteFrom t i ∉
        (executeAction "thread_comments" 1 99 exPollOptions "raw" "REMOVE_CONTENT"
          exRemoveDecision exOracle).effects) ∧
      (executeAction "thread_comments" 1 99 exPollOptions "raw" "REMOVE_CONTENT"
        exRemoveDecision exOracle).responseText = msgCannotRemove) :=
  ⟨by decide,
    (remove_content_table_guard "thread_comments" 1 99 exPollOptions "raw" "REMOVE_CONTENT"
      exRemoveDecision exOracle rfl).2 (by decide)⟩

/-- Claim C8 (amended): for every VotePoll decision whose option id is nonzero
and matches none of the option ids gathered during context assembly, no
poll-vote store write (neither a vote insert nor a counter increment) is
performed and the fixed invalid-option reply text is returned. -/
theorem invalid_vote_option_no_write (table : String) (itemId botUserId : Nat)
    (opts : List PollOption) (rawText actionType : String) (result : AiResult) (o : DbOracle)
    (n : Nat) (ha : actionType = "VOTE_POLL") (hid : result.poll_vote_option_id = some n)
    (hn : n ≠ 0) (hmatch : opts.find? (fun op => op.id == n) = none) :
    (∀ p q u, Effect.insertPollVote p q u ∉
        (executeAction table itemId botUserId opts rawText actionType result o).effects) ∧
    (∀ q, Effect.incrementPollVote q ∉
        (executeAction table itemId botUserId opts rawText actionType result o).effects) ∧
    (executeAction table itemId botUserId opts rawText actionType result o).responseText =
      msgInvalidOption := by
  subst ha
  simp [executeAction, natTruthyOpt, hid, hn, hmatch]

/-- Witness for `invalid_vote_option_no_write` at option id 9. -/
theorem invalid_vote_option_no_write_witness :
    exPollOptions.find? (fun op => op.id == 9) = none ∧
    (executeAction "comments" 1 99 exPollOptions "raw" "VOTE_POLL"
      { exVoteDecision with poll_vote_option_id := some 9 } exOracle).responseText =
      msgInvalidOption :=
  ⟨by decide,
    (invalid_vote_option_no_write "comments" 1 99 exPollOptions "raw" "VOTE_POLL"
      { exVoteDecision with poll_vote_option_id := some 9 } exOracle 9 rfl rfl
      (by decide) (by decide)).2.2⟩

/-- Claim C8 counterexample: a VotePoll decision citing option id 0 — which
matches none of the gathered option ids — is dispatched as a plain reply
(JavaScript treats 0 as falsy), so the returned text is the decision's
`reply_text`, not the fixed invalid-option text. -/
theorem vote_zero_option_id_cx :
    (∀ op ∈ exPollOptions, op.id ≠ 0) ∧
    (executeAction "comments" 1 99 exPollOptions "raw" "VOTE_POLL"
      exVoteZeroDecision exOracle).responseText = "hello" ∧
    (executeAction "comments" 1 99 exPollOptions "raw" "VOTE_POLL"
      exVoteZeroDecision exOracle).responseText ≠ msgInvalidOption ∧
    (executeAction "comments" 1 99 exPollOptions "raw" "VOTE_POLL"
      exVoteZeroDecision exOracle).effects = [] := by
  decide

/-- Claim C9 (amended): the VotePoll executor is idempotent per bot and per
OPTION: when the bot already has a vote recorded for the chosen option, no
vote insert and no counter increment are performed and the already-voted
reply is returned. -/
theorem vote_dedup_per_option (table : String) (itemId botUserId : Nat)
    (opts : List PollOption) (rawText actionType : String) (result : AiResult) (o : DbOracle)
    (n : Nat) (op : PollOption) (v : PollVote)
    (ha : actionType = "VOTE_POLL") (hid : result.poll_vote_option_id = some n) (hn : n ≠ 0)
    (hvalid : opts.find? (fun op => op.id == n) = some op)
    (hvoted : o.existingVotes.find? (fun w => w.user_id == botUserId && w.option_id == n) = some v) :
    (∀ p q u, Effect.insertPollVote p q u ∉
        (executeAction table itemId botUserId opts rawText actionType result o).effects) ∧
    (∀ q, Effect.incrementPollVote q ∉
        (executeAction table itemId botUserId opts rawText actionType result o).effects) ∧
    (executeAction table itemId botUserId opts rawText actionType result o).responseText =
      msgAlreadyVoted := by
  subst ha
  simp [executeAction, natTruthyOpt, hid, hn, hvalid, hvoted]

/-- Witness for `vote_dedup_per_option`: voting again for option 1. -/
theorem vote_dedup_per_option_witness :
    (exOracleVoted.existingVotes.find?
      (fun w => w.user_id == 99 && w.option_id == 1) = some (PollVote.mk 99 1 7)) ∧
    (executeAction "comments" 1 99 exPollOptions "raw" "VOTE_POLL"
      { exVoteDecision with poll_vote_option_id := some 1 } exOracleVoted).responseText =
      msgAlreadyVoted :=
  ⟨by decide,
    (vote_dedup_per_option "comments" 1 99 exPollOptions "raw" "VOTE_POLL"
      { exVoteDecision with poll_vote_option_id := some 1 } exOracleVoted 1
      (PollOption.mk 1 7 "A") (PollVote.mk 99 1 7) rfl rfl (by decide) (by decide) (by decide)).2.2⟩

/-- Claim C9 counterexample: the bot already holds a vote on option 1 of
poll 7, yet a VotePoll decision for option 2 of the same poll inserts a
second vote under the bot's identity — the existing-vote check is keyed on
the option id, not the poll id. -/
theorem bot_double_vote_same_poll_cx :
    PollVote.mk 99 1 7 ∈ exOracleVoted.existingVotes ∧
    Effect.insertPollVote 7 2 99 ∈
      (executeAction "comments" 1 99 exPollOptions "raw" "VOTE_POLL"
        exVoteDecision exOracleVoted).effects := by
  decide

/-- Helper: without poll intent in the message, the processed decision
carries no poll payload. -/
theorem processDecision_no_poll_data (content : String) (r : AiResult)
    (h : wantsPoll content = false) : (processDecision content r).poll_data = none := by
  unfold processDecision
  rw [h]
  cases hr : r.poll_data <;> simp [hr]

/-- Claim C4 (amended): when the triggering message text contains none of
poll/vote/survey/options, the poll payload is discarded before execution, so
no poll and no poll options are created for that trigger (a VotePoll decision
may still insert a poll vote). -/
theorem no_poll_materialized_without_intent (table : String) (itemId botUserId : Nat)
    (opts : List PollOption) (rawText actionType content : String) (r0 : AiResult) (o : DbOracle)
    (h : wantsPoll content = false) :
    (∀ p q qu, Effect.insertPoll p q qu ∉
        (executeAction table itemId botUserId opts rawText actionType
          (processDecision content r0) o).effects) ∧
    (∀ p ops, Effect.insertPollOptions p ops ∉
        (executeAction table itemId botUserId opts rawText actionType
          (processDecision content r0) o).effects) := by
  have hpd := processDecision_no_poll_data content r0 h
  refine ⟨fun p q qu => ?_, fun p ops => ?_⟩ <;>
    simp only [executeAction] <;> (repeat' split) <;> simp_all

/-- Claim C4 counterexample: a VotePoll decision on the message
"hey ai hello" — which contains none of poll/vote/survey/options — still
performs a poll-vote insert, so "no poll votes are created for that trigger"
fails as stated. -/
theorem vote_insert_without_poll_intent_cx :
    wantsPoll "hey ai hello" = false ∧
    Effect.insertPollVote 7 2 99 ∈
      (executeAction "comments" 1 99 exPollOptions "raw" "VOTE_POLL"
        (processDecision "hey ai hello" exVoteDecision) exOracle).effects := by
  decide

/-- Witness for `no_poll_materialized_without_intent`. -/
theorem no_poll_materialized_without_intent_witness :
    wantsPoll "hey ai hello" = false ∧
    (∀ p q qu, Effect.insertPoll p q qu ∉
        (executeAction "comments" 1 99 exPollOptions "raw" "VOTE_POLL"
          (processDecision "hey ai hello" exVoteDecision) exOracle).effects) :=
  ⟨by decide,
    (no_poll_materialized_without_intent "comments" 1 99 exPollOptions "raw" "VOTE_POLL"
      "hey ai hello" exVoteDecision exOracle (by decide)).1⟩

/-- Claim C10: for an INSERT on a whitelisted table with non-empty,
non-bot-marked, non-self-authored message text, the handler short-circuits
with HTTP 200 and performs no store mutation at all unless the text contains,
case-insensitively, the configured provider's trigger keyword or "hey ai". -/
theorem no_trigger_no_mutation (supabaseOk : Bool) (req : Request) (o : DbOracle)
    (hg : GuardsPass supabaseOk req o)
    (htrig : isTriggered (jsOrD o.config.ai_provider "google")
      (effectiveContent req.record) = false) :
    handler supabaseOk req o = ⟨200, "No trigger keyword found", []⟩ := by
  obtain ⟨h1, h2, h3, h4, h5, h6, h7, h8⟩ := hg
  simp [handler, h1, h2, h3, h4, h5, h6, h7, h8, htrig]

/-- Witness for `no_trigger_no_mutation` on the text "just a comment". -/
theorem no_trigger_no_mutation_witness :
    GuardsPass true exRequestNoTrigger exOracle ∧
    isTriggered (jsOrD exOracle.config.ai_provider "google")
      (effectiveContent exRequestNoTrigger.record) = false ∧
    handler true exRequestNoTrigger exOracle = ⟨200, "No trigger keyword found", []⟩ :=
  ⟨by decide, by decide,
    no_trigger_no_mutation true exRequestNoTrigger exOracle (by decide) (by decide)⟩

/-- Claim C2: an invocation that inserted a placeholder claim record and then
finds that the earliest record for the trigger has a different id deletes its
own just-inserted record, returns an HTTP 200 duplicate result, and posts no
reply to any content table. -/
theorem handler_race_lost_yields (supabaseOk : Bool) (req : Request) (o : DbOracle)
    (cid firstId : Nat) (rest : List Nat)
    (hg : GuardsPass supabaseOk req o)
    (htrig : isTriggered (jsOrD o.config.ai_provider "google")
      (effectiveContent req.record) = true)
    (hclaim : o.claimInsert = ClaimInsertRes.ok cid)
    (hq : o.claimsQuery = firstId :: rest)
    (hne : firstId ≠ cid) :
    handler supabaseOk req o =
      ⟨200, "Duplicate trigger (race detected)",
        [Effect.insertClaim cid req.record.id (effectiveContent req.record) processingSentinel,
         Effect.deleteClaim cid]⟩ ∧
    (∀ t u c p, Effect.insertReply t u c p ∉ (handler supabaseOk req o).effects) := by
  obtain ⟨h1, h2, h3, h4, h5, h6, h7, h8⟩ := hg
  have hmain : handler supabaseOk req o =
      ⟨200, "Duplicate trigger (race detected)",
        [Effect.insertClaim cid req.record.id (effectiveContent req.record) processingSentinel,
         Effect.deleteClaim cid]⟩ := by
    simp [handler, h1, h2, h3, h4, h5, h6, h7, h8, htrig, hclaim, hq, hne]
  refine ⟨hmain, ?_⟩
  intro t u c p hmem
  rw [hmain] at hmem
  simp at hmem

/-- Witness for `handler_race_lost_yields` with competing claim id 4. -/
theorem handler_race_lost_yields_witness :
    GuardsPass true exRequest exOracleRace ∧
    exOracleRace.claimInsert = ClaimInsertRes.ok 5 ∧
    exOracleRace.claimsQuery = [4, 5] ∧
    handler true exRequest exOracleRace =
      ⟨200, "Duplicate trigger (race detected)",
        [Effect.insertClaim 5 1 "hey ai hello" processingSentinel, Effect.deleteClaim 5]⟩ :=
  ⟨by decide, by decide, by decide,
    (handler_race_lost_yields true exRequest exOracleRace 5 4 [5]
      (by decide) (by decide) rfl rfl (by decide)).1⟩

/-- Helper: the dispatcher returns early only on a successful deletion, so an
early return always carries the delete effect. -/
theorem executeAction_early_has_delete (table : String) (itemId botUserId : Nat)
    (opts : List PollOption) (rawText actionType : String) (result : AiResult) (o : DbOracle)
    (h : (executeAction table itemId botUserId opts rawText actionType result o).earlyReturn = true) :
    Effect.deleteFrom table itemId ∈
      (executeAction table itemId botUserId opts rawText actionType result o).effects := by
  revert h
  simp only [executeAction]
  (repeat' split) <;> simp_all

/-- Helper: after a successful claim, every exit of the post-claim stage that
performed no deletion updates the claim record's output. -/
theorem handlerPostClaim_finalizes (table : String) (item : Rec) (content : String)
    (cid : Nat) (o : DbOracle)
    (hnodel : ∀ t i, Effect.deleteFrom t i ∉
      (handlerPostClaim table item content (some cid) o).effects) :
    ∃ v, Effect.updateClaim cid v ∈ (handlerPostClaim table item content (some cid) o).effects := by
  unfold handlerPostClaim at hnodel ⊢
  cases hb : o.config.bot_user_id with
  | none => exact ⟨"ERROR: Bot Not Configured", by simp⟩
  | some b =>
    rw [hb] at hnodel
    cases hg : o.gen with
    | error e => exact ⟨msgProcessingError, by simp⟩
    | ok rawResult =>
      rw [hg] at hnodel
      simp only [] at hnodel ⊢
      by_cases he : (executeAction table item.id b (contextPollOptions table item o) rawResult.1
          (jsOrS rawResult.2.action "REPLY") (processDecision content rawResult.2) o).earlyReturn = true
      · exact absurd
          (by rw [if_pos he]
              exact executeAction_early_has_delete table item.id b
                (contextPollOptions table item o) rawResult.1 (jsOrS rawResult.2.action "REPLY")
                (processDecision content rawResult.2) o he)
          (hnodel table item.id)
      · refine ⟨(executeAction table item.id b (contextPollOptions table item o) rawResult.1
          (jsOrS rawResult.2.action "REPLY") (processDecision content rawResult.2) o).responseText, ?_⟩
        rw [if_neg he]
        simp

/-- Claim C3 (amended): every invocation that successfully claims a trigger
overwrites the placeholder's output field on every exit path — including
error paths — EXCEPT the successful RemoveContent path, which returns
immediately after the delete and leaves the placeholder at the processing
sentinel. Formally: a claimed run that performed no content deletion always
records an update of its claim record. -/
theorem claimed_invocation_finalized (supabaseOk : Bool) (req : Request) (o : DbOracle) (cid : Nat)
    (hg : GuardsPass supabaseOk req o)
    (htrig : isTriggered (jsOrD o.config.ai_provider "google")
      (effectiveContent req.record) = true)
    (hclaim : o.claimInsert = ClaimInsertRes.ok cid)
    (hrace : ∀ f rest, o.claimsQuery = f :: rest → f = cid)
    (hnodel : ∀ t i, Effect.deleteFrom t i ∉ (handler supabaseOk req o).effects) :
    ∃ v, Effect.updateClaim cid v ∈ (handler supabaseOk req o).effects := by
  obtain ⟨h1, h2, h3, h4, h5, h6, h7, h8⟩ := hg
  have hred : (handler supabaseOk req o).effects =
      Effect.insertClaim cid req.record.id (effectiveContent req.record) processingSentinel ::
        (handlerPostClaim req.table req.record (effectiveContent req.record) (some cid) o).effects := by
    cases hq : o.claimsQuery with
    | nil => simp [handler, h1, h2, h3, h4, h5, h6, h7, h8, htrig, hclaim, hq]
    | cons f rest =>
      have hf := hrace f rest hq
      subst hf
      simp [handler, h1, h2, h3, h4, h5, h6, h7, h8, htrig, hclaim, hq]
  rw [hred] at hnodel ⊢
  obtain ⟨v, hv⟩ := handlerPostClaim_finalizes req.table req.record
    (effectiveContent req.record) cid o
    (fun t i hmem => hnodel t i (List.mem_cons_of_mem _ hmem))
  exact ⟨v, List.mem_cons_of_mem _ hv⟩

/-- Witness for `claimed_invocation_finalized` on a plain reply run. -/
theorem claimed_invocation_finalized_witness :
    GuardsPass true exRequest exOracle ∧
    exOracle.claimInsert = ClaimInsertRes.ok 5 ∧
    (∃ v, Effect.updateClaim 5 v ∈ (handler true exRequest exOracle).effects) :=
  ⟨by decide, rfl,
    claimed_invocation_finalized true exRequest exOracle 5 (by decide) (by decide) rfl
      (by intro f rest hq
          injection (show ([5] : List Nat) = f :: rest from hq) with ha hb
          exact ha.symm)
      (by intro t i hmem
          rw [show (handler true exRequest exOracle).effects =
            [Effect.insertClaim 5 1 "hey ai hello" processingSentinel,
             Effect.insertReply "comments" 99 ("🤖 hello there") (some 3),
             Effect.updateClaim 5 "hello there", Effect.neonLog 1] from by decide] at hmem
          simp at hmem)⟩

/-- Claim C3 counterexample: a claimed invocation whose decision is a
successful RemoveContent returns early with only the placeholder insert and
the delete among its effects — the placeholder's output is never overwritten,
remaining at the processing sentinel. -/
theorem remove_success_skips_finalize_cx :
    (handler true exRequestPosts exOracleRemove).status = 200 ∧
    (handler true exRequestPosts exOracleRemove).effects =
      [Effect.insertClaim 5 1 "hey ai hello" processingSentinel,
       Effect.deleteFrom "posts" 1] ∧
    ¬ ∃ v, Effect.updateClaim 5 v ∈ (handler true exRequestPosts exOracleRemove).effects := by
  have he : (handler true exRequestPosts exOracleRemove).effects =
      [Effect.insertClaim 5 1 "hey ai hello" processingSentinel,
       Effect.deleteFrom "posts" 1] := by decide
  refine ⟨by decide, he, ?_⟩
  rintro ⟨v, hv⟩
  rw [he] at hv
  simp at hv
